import Mathlib

/-!
Shallow embedding of the amp-client socket controller
(src/unnamed/part_000) and of the connection-lifecycle machinery it
installs, together with theorems checking the specification's claims.

Handlers are embedded as pure functions from their inputs to the list of
Redux actions they dispatch, in dispatch order; the JS try/catch becomes
case analysis on `Except` results of the fallible collaborators.  The
collaborators that live elsewhere in the repository (parsers, signer,
the ethers address checksummer, the random nonce source, the table
reducers) are abstract parameters gathered in `Env`, or definitions
marked `Modelled from the spec:`.
-/

namespace AmpClient

/-- Raw wire-format order payload as it arrives on the socket.  The
controller reads `userAddress`, assigns `nonce`, and hands the rest to
`parseOrder` / `signer.signOrder`; everything it does not look at is
collapsed into `rest`, and `signature` is the field the signer fills. -/
structure RawOrder where
  userAddress : String := ""
  nonce : Option Nat := none
  signature : Option String := none
  rest : String := ""
  deriving DecidableEq

/-- Raw wire-format trade payload.  The controller reads `maker` and
`taker`, assigns `tradeNonce`, and hands the rest to `parseTrade` /
`signer.signTrade`. -/
structure RawTrade where
  maker : String := ""
  taker : String := ""
  tradeNonce : Option Nat := none
  signature : Option String := none
  rest : String := ""
  deriving DecidableEq

/-- A match as carried by ORDER_SUCCESS / ORDER_PENDING / REQUEST_SIGNATURE
payloads: one order paired with one trade. -/
structure RawMatch where
  order : RawOrder := {}
  trade : RawTrade := {}
  deriving DecidableEq

/-- Parsed domain order record, as produced by `parseOrder`.  The
controller treats it as opaque; `id` is the upsert key of the table. -/
structure Order where
  id : Nat := 0
  data : String := ""
  deriving DecidableEq

/-- Parsed domain trade record, as produced by `parseTrade`. -/
structure Trade where
  id : Nat := 0
  data : String := ""
  deriving DecidableEq

/-- One price level of the order book, as produced by `parseOrderBookData`. -/
structure PriceLevel where
  price : Int := 0
  amount : Int := 0
  deriving DecidableEq

/-- Result shape of `parseOrderBookData`: the bids and asks sequences. -/
structure OrderBookData where
  bids : List PriceLevel := []
  asks : List PriceLevel := []
  deriving DecidableEq

/-- Raw order-book payload element (opaque to the controller). -/
structure RawLevel where
  rest : String := ""
  deriving DecidableEq

/-- Raw OHLCV payload element (opaque to the controller). -/
structure RawCandle where
  rest : String := ""
  deriving DecidableEq

/-- Parsed OHLCV candle, as produced by `parseOHLCV`. -/
structure Candle where
  data : String := ""
  deriving DecidableEq

/-- The observable effects a handler can dispatch or perform, in order:
notifications, console logging, the table-update action creators, the
outbound submit-signature send, and the connection-lifecycle actions. -/
inductive Action where
  | successNotification (message : String)
  | dangerNotification (message : String)
  | consoleLog (message : String)
  | updateOrdersTable (orders : List Order)
  | updateTradesTable (trades : List Trade)
  | initTradesTable (trades : List Trade)
  | initOrderBook (bids asks : List PriceLevel)
  | updateOrderBook (bids asks : List PriceLevel)
  | initOHLCV (candles : List Candle)
  | updateOHLCV (candles : List Candle)
  | sendNewSubmitSignatureMessage (hash : String) (order : Option RawOrder)
      (remainingOrder : Option RawOrder) (matchList : Option (List RawMatch))
  | createConnection
  | closeConnection
  | dispatchOpenConnection
  deriving DecidableEq

/-- Modelled from the spec: the Signer collaborator (services/signer is not
under src/): getAddress yields the signer-bound address, signOrder and
signTrade sign one structure and fail on credential or network error.  The
JS signer signs its argument in place, so the embedding threads each signed
result back into the variable that held the argument. -/
structure Signer where
  getAddress : Except String String
  signOrder : RawOrder → Except String RawOrder
  signTrade : RawTrade → Except String RawTrade

/-- The ambient collaborators of the controller, abstract because their
code is not under src/: the parsers (utils/parsers), ethers
`utils.getAddress` (checksum canonicalization of an address), the signer
lookup `getSigner` (which can throw), and the random nonce source
`getRandomNonce`, whose k-th draw in call order is `nonce k`. -/
structure Env where
  parseOrder : RawOrder → Except String Order
  parseTrade : RawTrade → Except String Trade
  parseTrades : List RawTrade → Except String (List Trade)
  parseOrderBookData : List RawLevel → Except String OrderBookData
  parseOHLCV : List RawCandle → Except String (List Candle)
  getAddress : String → String
  getSigner : Except String Signer
  nonce : Nat → Nat

/-- The membership test of handleOrderSuccess / handleOrderPending for the
match's order: `utils.getAddress(order.userAddress) === signerAddress`. -/
def ownerTest (env : Env) (signerAddress : String) (m : RawMatch) : Bool :=
  env.getAddress m.order.userAddress == signerAddress

/-- The membership test for the match's trade:
`utils.getAddress(trade.maker) === signerAddress || utils.getAddress(trade.taker) === signerAddress`. -/
def counterpartyTest (env : Env) (signerAddress : String) (m : RawMatch) : Bool :=
  env.getAddress m.trade.maker == signerAddress ||
    env.getAddress m.trade.taker == signerAddress

/-- The forEach loop of handleOrderSuccess / handleOrderPending: walk the
matches in order, pushing the parsed order when the owner test passes and
the parsed trade when the counterparty test passes; a parse throw aborts
the walk with that error (JS exceptions abort forEach). -/
def collectMatches (env : Env) (signerAddress : String) :
    List RawMatch → Except String (List Order × List Trade)
  | [] => Except.ok ([], [])
  | m :: ms =>
    let ordPart : Except String (List Order) :=
      if ownerTest env signerAddress m then
        match env.parseOrder m.order with
        | Except.ok o => Except.ok [o]
        | Except.error e => Except.error e
      else Except.ok []
    match ordPart with
    | Except.error e => Except.error e
    | Except.ok os =>
      let trdPart : Except String (List Trade) :=
        if counterpartyTest env signerAddress m then
          match env.parseTrade m.trade with
          | Except.ok t => Except.ok [t]
          | Except.error e => Except.error e
        else Except.ok []
      match trdPart with
      | Except.error e => Except.error e
      | Except.ok ts =>
        match collectMatches env signerAddress ms with
        | Except.error e => Except.error e
        | Except.ok (osr, tsr) => Except.ok (os ++ osr, ts ++ tsr)

/-- Specification-side description of the order batch: the parsed orders of
exactly the matches whose owner passes the address test, in match order. -/
def selectedOrders (env : Env) (signerAddress : String) (ms : List RawMatch) : List Order :=
  (ms.filter (ownerTest env signerAddress)).filterMap fun m => (env.parseOrder m.order).toOption

/-- Specification-side description of the trade batch: the parsed trades of
exactly the matches whose maker or taker passes the address test. -/
def selectedTrades (env : Env) (signerAddress : String) (ms : List RawMatch) : List Trade :=
  (ms.filter (counterpartyTest env signerAddress)).filterMap fun m => (env.parseTrade m.trade).toOption

/-- handleOrderAdded: parse the payload, then dispatch the success notice
and the one-element orders-table upsert; a parse throw is caught, logged,
and surfaced as a danger notice. -/
def handleOrderAdded (env : Env) (payload : RawOrder) : List Action :=
  match env.parseOrder payload with
  | Except.ok order =>
    [Action.successNotification "Order added", Action.updateOrdersTable [order]]
  | Except.error e => [Action.consoleLog e, Action.dangerNotification e]

/-- handleOrderCancelled: same shape as handleOrderAdded with the
"Order cancelled" notice. -/
def handleOrderCancelled (env : Env) (payload : RawOrder) : List Action :=
  match env.parseOrder payload with
  | Except.ok order =>
    [Action.successNotification "Order cancelled", Action.updateOrdersTable [order]]
  | Except.error e => [Action.consoleLog e, Action.dangerNotification e]

/-- handleOrderSuccess: obtain the signer and its address, walk the matches
building the two batches, dispatch each batch only when non-empty, then the
success notice; any throw is caught, logged, and surfaced as a danger
notice with the failure's message. -/
def handleOrderSuccess (env : Env) (matchList : List RawMatch) : List Action :=
  match env.getSigner with
  | Except.error e => [Action.consoleLog e, Action.dangerNotification e]
  | Except.ok signer =>
    match signer.getAddress with
    | Except.error e => [Action.consoleLog e, Action.dangerNotification e]
    | Except.ok signerAddress =>
      match collectMatches env signerAddress matchList with
      | Except.error e => [Action.consoleLog e, Action.dangerNotification e]
      | Except.ok (orders, trades) =>
        (if orders.length > 0 then [Action.updateOrdersTable orders] else []) ++
          (if trades.length > 0 then [Action.updateTradesTable trades] else []) ++
          [Action.successNotification "Order success"]

/-- handleOrderPending: identical to handleOrderSuccess except for the
"Order pending" notice. -/
def handleOrderPending (env : Env) (matchList : List RawMatch) : List Action :=
  match env.getSigner with
  | Except.error e => [Action.consoleLog e, Action.dangerNotification e]
  | Except.ok signer =>
    match signer.getAddress with
    | Except.error e => [Action.consoleLog e, Action.dangerNotification e]
    | Except.ok signerAddress =>
      match collectMatches env signerAddress matchList with
      | Except.error e => [Action.consoleLog e, Action.dangerNotification e]
      | Except.ok (orders, trades) =>
        (if orders.length > 0 then [Action.updateOrdersTable orders] else []) ++
          (if trades.length > 0 then [Action.updateTradesTable trades] else []) ++
          [Action.successNotification "Order pending"]

/-- handleOrderError: dispatch a danger notice interpolating the payload. -/
def handleOrderError (payload : String) : List Action :=
  [Action.dangerNotification ("Error: " ++ payload)]

/-- Step 2 helper of handleRequestSignature: the remaining order with its
fresh nonce assigned (`remainingOrder.nonce = getRandomNonce()`), the first
draw of the nonce source. -/
def assignedRemainingOrder (env : Env) (ro : RawOrder) : RawOrder :=
  { ro with nonce := some (env.nonce 0) }

/-- Step 2 of handleRequestSignature: when a remaining order is present,
assign it the fresh nonce and await the signer on it; the result is the
(in-place) signed remaining order together with the number of nonce draws
consumed so far. -/
def roStep (env : Env) (signer : Signer) :
    Option RawOrder → Except String (Option RawOrder × Nat)
  | none => Except.ok (none, 0)
  | some ro =>
    match signer.signOrder (assignedRemainingOrder env ro) with
    | Except.ok signed => Except.ok (some signed, 1)
    | Except.error e => Except.error e

/-- Step 3 first pass: `matches.map(match => (match.trade.tradeNonce = getRandomNonce()))`
assigns every trade a fresh nonce, consuming consecutive draws starting
after the `k` draws already used. -/
def assignTradeNonces (env : Env) (k : Nat) (ms : List RawMatch) : List RawMatch :=
  ms.enum.map fun p =>
    { p.2 with trade := { p.2.trade with tradeNonce := some (env.nonce (k + p.1)) } }

/-- Step 3 second pass: sign every trade; `Promise.all` is all-or-nothing,
so the result is the list of signed matches, or the failure of a failing
signing call (the embedding reports the first failing call in list order,
matching the deterministic single-threaded model). -/
def signAllTrades (signer : Signer) : List RawMatch → Except String (List RawMatch)
  | [] => Except.ok []
  | m :: ms =>
    match signer.signTrade m.trade with
    | Except.error e => Except.error e
    | Except.ok t =>
      match signAllTrades signer ms with
      | Except.error e => Except.error e
      | Except.ok rest => Except.ok ({ m with trade := t } :: rest)

/-- Step 3 of handleRequestSignature: when matches are present, assign all
trade nonces and sign all trades. -/
def msStep (env : Env) (signer : Signer) (k : Nat) :
    Option (List RawMatch) → Except String (Option (List RawMatch))
  | none => Except.ok none
  | some ms =>
    match signAllTrades signer (assignTradeNonces env k ms) with
    | Except.ok signed => Except.ok (some signed)
    | Except.error e => Except.error e

/-- Steps 2 through 4 of handleRequestSignature (after the step-1 upsert
already dispatched): sign the remaining order, sign the trades, then
dispatch the "Signing trade" notice and the single outbound
sendNewSubmitSignatureMessage; a failure at either signing step is caught,
surfaced as a danger notice, logged, and nothing is sent. -/
def hrsRest (env : Env) (signer : Signer) (hash : String)
    (order remainingOrder : Option RawOrder) (matchList : Option (List RawMatch)) :
    List Action :=
  match roStep env signer remainingOrder with
  | Except.error e => [Action.dangerNotification e, Action.consoleLog e]
  | Except.ok (ro, k) =>
    match msStep env signer k matchList with
    | Except.error e => [Action.dangerNotification e, Action.consoleLog e]
    | Except.ok ms =>
      [Action.successNotification "Signing trade",
        Action.sendNewSubmitSignatureMessage hash order ro ms]

/-- handleRequestSignature: obtain the signer, then (step 1) parse and
upsert `order` when present — that dispatch happens before any signing and
survives later failures — then run the signing steps and the outbound
send.  Any throw is caught: danger notice with the message, then log. -/
def handleRequestSignature (env : Env) (hash : String)
    (order remainingOrder : Option RawOrder) (matchList : Option (List RawMatch)) :
    List Action :=
  match env.getSigner with
  | Except.error e => [Action.dangerNotification e, Action.consoleLog e]
  | Except.ok signer =>
    match order with
    | some o =>
      match env.parseOrder o with
      | Except.error e => [Action.dangerNotification e, Action.consoleLog e]
      | Except.ok parsedOrder =>
        Action.updateOrdersTable [parsedOrder] ::
          hrsRest env signer hash order remainingOrder matchList
    | none => hrsRest env signer hash order remainingOrder matchList

/-- The actions step 1 of handleRequestSignature dispatches: the upsert of
the parsed `order` when it is present (and parses). -/
def step1Actions (env : Env) (order : Option RawOrder) : List Action :=
  match order with
  | none => []
  | some o =>
    match env.parseOrder o with
    | Except.ok parsedOrder => [Action.updateOrdersTable [parsedOrder]]
    | Except.error _ => []

/-- The orders-channel events, tagged by the source's `event.type` strings. -/
inductive OrdersEvent where
  | ORDER_ADDED (payload : RawOrder)
  | ORDER_CANCELLED (payload : RawOrder)
  | ORDER_SUCCESS (matchList : List RawMatch)
  | ORDER_PENDING (matchList : List RawMatch)
  | REQUEST_SIGNATURE (hash : String) (order : Option RawOrder)
      (remainingOrder : Option RawOrder) (matchList : Option (List RawMatch))
  | ERROR (payload : String)
  | UNKNOWN (t : String)

/-- handleOrderMessage: the switch on `event.type` of the orders channel;
unknown types are logged and ignored. -/
def handleOrderMessage (env : Env) : OrdersEvent → List Action
  | OrdersEvent.ORDER_ADDED p => handleOrderAdded env p
  | OrdersEvent.ORDER_CANCELLED p => handleOrderCancelled env p
  | OrdersEvent.ORDER_SUCCESS ms => handleOrderSuccess env ms
  | OrdersEvent.ORDER_PENDING ms => handleOrderPending env ms
  | OrdersEvent.REQUEST_SIGNATURE h o ro ms => handleRequestSignature env h o ro ms
  | OrdersEvent.ERROR p => handleOrderError p
  | OrdersEvent.UNKNOWN _ => [Action.consoleLog "Unknown"]

/-- Event type tag of the synchronizer channels. -/
inductive SyncType where
  | INIT
  | UPDATE
  | other (t : String)

/-- A synchronizer-channel event: the type tag and the payload, which is
`none` when absent (JS null or undefined, the falsy values the `!event.payload`
guard catches; an array, even empty, is truthy in JS). -/
structure SyncEvent (π : Type) where
  type : SyncType
  payload : Option π

/-- The source's guard `event.payload === []`: JS strict equality compares
an object against a fresh array literal by reference, so it is false for
every payload, including an empty array. -/
def refEqFreshArray {π : Type} (_ : π) : Bool := false

/-- handleOrderBookMessage: INIT replaces, UPDATE merges; absent payloads
are a no-op, the reference-equality guard never fires, and parse throws
are caught as a danger notice plus log. -/
def handleOrderBookMessage (env : Env) (ev : SyncEvent (List RawLevel)) : List Action :=
  match ev.type with
  | SyncType.INIT =>
    match ev.payload with
    | none => []
    | some p =>
      if refEqFreshArray p then [] else
      match env.parseOrderBookData p with
      | Except.ok d => [Action.initOrderBook d.bids d.asks]
      | Except.error e => [Action.dangerNotification e, Action.consoleLog e]
  | SyncType.UPDATE =>
    match ev.payload with
    | none => []
    | some p =>
      if refEqFreshArray p then [] else
      match env.parseOrderBookData p with
      | Except.ok d => [Action.updateOrderBook d.bids d.asks]
      | Except.error e => [Action.dangerNotification e, Action.consoleLog e]
  | SyncType.other _ => []

/-- handleTradesMessage: INIT dispatches initTradesTable, UPDATE dispatches
updateTradesTable, same guards and catch as the order-book handler. -/
def handleTradesMessage (env : Env) (ev : SyncEvent (List RawTrade)) : List Action :=
  match ev.type with
  | SyncType.INIT =>
    match ev.payload with
    | none => []
    | some p =>
      if refEqFreshArray p then [] else
      match env.parseTrades p with
      | Except.ok ts => [Action.initTradesTable ts]
      | Except.error e => [Action.dangerNotification e, Action.consoleLog e]
  | SyncType.UPDATE =>
    match ev.payload with
    | none => []
    | some p =>
      if refEqFreshArray p then [] else
      match env.parseTrades p with
      | Except.ok ts => [Action.updateTradesTable ts]
      | Except.error e => [Action.dangerNotification e, Action.consoleLog e]
  | SyncType.other _ => []

/-- handleOHLCVMessage: same shape for the candle synchronizer. -/
def handleOHLCVMessage (env : Env) (ev : SyncEvent (List RawCandle)) : List Action :=
  match ev.type with
  | SyncType.INIT =>
    match ev.payload with
    | none => []
    | some p =>
      if refEqFreshArray p then [] else
      match env.parseOHLCV p with
      | Except.ok cs => [Action.initOHLCV cs]
      | Except.error e => [Action.dangerNotification e, Action.consoleLog e]
  | SyncType.UPDATE =>
    match ev.payload with
    | none => []
    | some p =>
      if refEqFreshArray p then [] else
      match env.parseOHLCV p with
      | Except.ok cs => [Action.updateOHLCV cs]
      | Except.error e => [Action.dangerNotification e, Action.consoleLog e]
  | SyncType.other _ => []

/-- The one kind of scheduled operation of the controller: the reconnect
scheduled by handleWebsocketCloseMessage. -/
inductive TimerTask where
  | reconnect
  deriving DecidableEq

/-- Connection-lifecycle state: the dispatched actions in order, the
pending setTimeout entries as (delay, task) pairs, and whether the socket
is open.  A fresh openConnection run starts with no pending timers. -/
structure SysState where
  actions : List Action := []
  timers : List (Nat × TimerTask) := []
  socketOpen : Bool := true
  deriving DecidableEq

/-- The state right after openConnection has run: the createConnection
action dispatched, the socket open, no pending timers. -/
def initSysState : SysState :=
  { actions := [Action.createConnection], timers := [], socketOpen := true }

/-- Lifecycle event tags, the source strings being open, close, error. -/
inductive LifecycleEventType where
  | openEvt
  | closeEvt
  | errorEvt
  deriving DecidableEq

/-- handleWebsocketCloseMessage: dispatch the danger notice and schedule
the reconnect, `setTimeout(() => dispatch(openConnection()), 5000)`; the
timer id is not retained anywhere. -/
def handleWebsocketCloseMessage (s : SysState) : SysState :=
  { s with
    actions := s.actions ++ [Action.dangerNotification "Connection lost"],
    timers := s.timers ++ [(5000, TimerTask.reconnect)] }

/-- The teardown handle returned by openConnection:
`() => { closeConnection(); dispatch(actionCreators.closeConnection()) }`.
It closes the socket and dispatches the closeConnection action; it does
not reference any timer. -/
def teardown (s : SysState) : SysState :=
  { s with socketOpen := false, actions := s.actions ++ [Action.closeConnection] }

/-- The lifecycle callback installed by openConnection: close runs
handleWebsocketCloseMessage, error only logs, open dispatches the
"Reconnected" success notice. -/
def lifecycleStep (s : SysState) : LifecycleEventType → SysState
  | LifecycleEventType.closeEvt => handleWebsocketCloseMessage s
  | LifecycleEventType.errorEvt =>
    { s with actions := s.actions ++ [Action.consoleLog "error"] }
  | LifecycleEventType.openEvt =>
    { s with actions := s.actions ++ [Action.successNotification "Reconnected"] }

/-- Run a sequence of lifecycle events. -/
def runLifecycle (s : SysState) (evs : List LifecycleEventType) : SysState :=
  evs.foldl lifecycleStep s

/-- The event-loop timer semantics: letting `ms` milliseconds pass fires
every pending timer whose delay has elapsed; each fired reconnect task
dispatches openConnection again. -/
def elapse (ms : Nat) (s : SysState) : SysState :=
  { s with
    timers := s.timers.filter fun t => decide (ms < t.1),
    actions := s.actions ++
      (s.timers.filter fun t => decide (t.1 ≤ ms)).map fun _ => Action.dispatchOpenConnection }

/-- Modelled from the spec: the orders-table reducer (the action creators
and reducers are not under src/) applies a batched update as an idempotent
upsert keyed by record id, never an append of duplicates. -/
def upsertOrder (tbl : List Order) (o : Order) : List Order :=
  if tbl.any fun x => x.id == o.id then
    tbl.map fun x => if x.id == o.id then o else x
  else tbl ++ [o]

/-- Modelled from the spec: the trades-table reducer, same upsert shape. -/
def upsertTrade (tbl : List Trade) (t : Trade) : List Trade :=
  if tbl.any fun x => x.id == t.id then
    tbl.map fun x => if x.id == t.id then t else x
  else tbl ++ [t]

/-- Modelled from the spec: order-book UPDATE merges per price level,
removing a level whose resulting amount is zero. -/
def mergeLevel (levels : List PriceLevel) (l : PriceLevel) : List PriceLevel :=
  if l.amount == 0 then levels.filter fun x => x.price != l.price
  else if levels.any fun x => x.price == l.price then
    levels.map fun x => if x.price == l.price then l else x
  else levels ++ [l]

/-- The local table state the reducers maintain. -/
structure Tables where
  orders : List Order := []
  trades : List Trade := []
  book : OrderBookData := {}
  ohlcv : List Candle := []
  deriving DecidableEq

/-- Modelled from the spec: how the store applies one dispatched action to
the tables; notifications, logs, sends and connection actions do not touch
table state. -/
def applyAction (t : Tables) : Action → Tables
  | Action.updateOrdersTable os => { t with orders := os.foldl upsertOrder t.orders }
  | Action.updateTradesTable ts => { t with trades := ts.foldl upsertTrade t.trades }
  | Action.initTradesTable ts => { t with trades := ts }
  | Action.initOrderBook bids asks => { t with book := { bids := bids, asks := asks } }
  | Action.updateOrderBook bids asks =>
    { t with book := { bids := bids.foldl mergeLevel t.book.bids,
                       asks := asks.foldl mergeLevel t.book.asks } }
  | Action.initOHLCV cs => { t with ohlcv := cs }
  | Action.updateOHLCV cs => { t with ohlcv := t.ohlcv ++ cs }
  | _ => t

/-- Apply a dispatched action list in order. -/
def applyActions (t : Tables) (as : List Action) : Tables :=
  as.foldl applyAction t

/-- Is this action the outbound submit-signature send? -/
def isSend : Action → Bool
  | Action.sendNewSubmitSignatureMessage _ _ _ _ => true
  | _ => false

/-- Does this action mutate some table? -/
def isTableAction : Action → Bool
  | Action.updateOrdersTable _ => true
  | Action.updateTradesTable _ => true
  | Action.initTradesTable _ => true
  | Action.initOrderBook _ _ => true
  | Action.updateOrderBook _ _ => true
  | Action.initOHLCV _ => true
  | Action.updateOHLCV _ => true
  | _ => false

/-- Is this action a success notification? -/
def isSuccessNotice : Action → Bool
  | Action.successNotification _ => true
  | _ => false

/-- Is this action a danger notification? -/
def isDangerNotice : Action → Bool
  | Action.dangerNotification _ => true
  | _ => false

/-- The batches carried by the orders-table update actions of a run. -/
def ordersBatches (as : List Action) : List (List Order) :=
  as.filterMap fun a =>
    match a with
    | Action.updateOrdersTable os => some os
    | _ => none

/-- The batches carried by the trades-table update actions of a run. -/
def tradesBatches (as : List Action) : List (List Trade) :=
  as.filterMap fun a =>
    match a with
    | Action.updateTradesTable ts => some ts
    | _ => none

/-- A concrete signer used to evaluate the handlers on closed inputs: it
rejects structures whose opaque part is "nosign" and otherwise attaches a
signature; its address is already in canonical form for `testEnv`. -/
def testSigner : Signer where
  getAddress := Except.ok "aa"
  signOrder := fun o =>
    if o.rest == "nosign" then Except.error "order signing failed"
    else Except.ok { o with signature := some "sig" }
  signTrade := fun t =>
    if t.rest == "nosign" then Except.error "trade signing failed"
    else Except.ok { t with signature := some "sig" }

/-- A concrete environment for closed evaluations: parsers reject payloads
whose opaque part is "bad" (and the book parser rejects an empty payload),
address canonicalization is the identity (inputs are supplied already
canonical), and the k-th nonce draw is 100 + k. -/
def testEnv : Env where
  parseOrder := fun r =>
    if r.rest == "bad" then Except.error "bad order payload"
    else Except.ok { id := r.userAddress.length, data := r.rest }
  parseTrade := fun r =>
    if r.rest == "bad" then Except.error "bad trade payload"
    else Except.ok { id := r.maker.length, data := r.rest }
  parseTrades := fun rs =>
    if rs.any fun r => r.rest == "bad" then Except.error "bad trades payload"
    else Except.ok (rs.map fun r => { id := r.maker.length, data := r.rest })
  parseOrderBookData := fun ls =>
    if ls.isEmpty then Except.error "empty book payload"
    else Except.ok { bids := [{ price := 10, amount := 5 }], asks := [] }
  parseOHLCV := fun cs =>
    if cs.any fun c => c.rest == "bad" then Except.error "bad ohlcv payload"
    else Except.ok (cs.map fun c => { data := c.rest })
  getAddress := fun s => s
  getSigner := Except.ok testSigner
  nonce := fun k => 100 + k

/-- testEnv with a failing signer lookup. -/
def noSignerEnv : Env :=
  { testEnv with getSigner := Except.error "no signer available" }

/-- testEnv with a signer whose address lookup fails. -/
def noAddressEnv : Env :=
  { testEnv with
    getSigner := Except.ok { testSigner with getAddress := Except.error "address unavailable" } }

/-- A stand-in checksum canonicalization with one non-fixed point: the
lowercase spelling "ab" canonicalizes to "AB"; every other string is
already canonical.  Mirrors the shape of EIP-55 checksumming, where the
all-lowercase spelling of an account differs from its canonical form. -/
def mockChecksum (s : String) : String :=
  if s == "ab" then "AB" else s

/-- testEnv with the mockChecksum canonicalization and a signer that
supplies its address in the non-canonical lowercase spelling "ab". -/
def lowercaseSignerEnv : Env :=
  { testEnv with
    getAddress := mockChecksum,
    getSigner := Except.ok { testSigner with getAddress := Except.ok "ab" } }

/-- A raw order that parses under testEnv. -/
def wOrder : RawOrder := { userAddress := "aa", rest := "w" }

/-- A raw order that testEnv's parser rejects. -/
def badOrder : RawOrder := { userAddress := "aa", rest := "bad" }

/-- A raw trade that parses and signs under testEnv. -/
def wTrade : RawTrade := { maker := "aa", taker := "bb", rest := "w" }

/-- A raw trade that testEnv's parser rejects. -/
def badTrade : RawTrade := { maker := "aa", taker := "bb", rest := "bad" }

/-- A raw trade that testSigner refuses to sign. -/
def noSignTrade : RawTrade := { maker := "aa", taker := "bb", rest := "nosign" }

/-- A match that is entirely well-behaved under testEnv. -/
def wMatch : RawMatch := { order := wOrder, trade := wTrade }

/-- A match whose trade fails to parse under testEnv. -/
def badTradeMatch : RawMatch := { order := wOrder, trade := badTrade }

/-- A match whose trade testSigner refuses to sign. -/
def noSignMatch : RawMatch := { order := wOrder, trade := noSignTrade }

/-- A match owned by the account whose canonical form is "AB", with the
wire supplying the canonical spelling. -/
def abMatch : RawMatch :=
  { order := { userAddress := "AB", rest := "w" },
    trade := { maker := "xx", taker := "yy", rest := "w" } }

/-- A match owned by the same account, with the wire supplying the
lowercase spelling. -/
def abLowerMatch : RawMatch :=
  { order := { userAddress := "ab", rest := "w" },
    trade := { maker := "xx", taker := "yy", rest := "w" } }

/-- Empty table state for closed evaluations. -/
def t0 : Tables := {}

/-- A table state holding one trade, to exhibit table-state changes. -/
def t1 : Tables := { trades := [{ id := 7, data := "x" }] }

/-- Actions that are not table updates leave the table state fixed. -/
theorem applyAction_of_not_table (t : Tables) (a : Action) (h : isTableAction a = false) :
    applyAction t a = t := by
  cases a <;> first
    | rfl
    | simp [isTableAction] at h

/-- A run containing no table update leaves the table state fixed. -/
theorem applyActions_of_not_table (t : Tables) (as : List Action)
    (h : ∀ a ∈ as, isTableAction a = false) : applyActions t as = t := by
  induction as generalizing t with
  | nil => rfl
  | cons a as ih =>
    have ha : applyAction t a = t := applyAction_of_not_table t a (h a (by simp))
    have hstep : applyActions t (a :: as) = applyActions (applyAction t a) as := rfl
    rw [hstep, ha]
    exact ih t fun b hb => h b (by simp [hb])

/-- Applying a concatenation applies the two runs in order. -/
theorem applyActions_append (t : Tables) (as bs : List Action) :
    applyActions t (as ++ bs) = applyActions (applyActions t as) bs :=
  List.foldl_append ..

/-- roStep fails exactly when a remaining order is present and the signer
fails on it after the fresh nonce was assigned. -/
theorem roStep_error_iff (env : Env) (signer : Signer) (ro? : Option RawOrder) (e : String) :
    roStep env signer ro? = Except.error e ↔
      ∃ ro, ro? = some ro ∧
        signer.signOrder (assignedRemainingOrder env ro) = Except.error e := by
  cases ro? with
  | none => simp [roStep]
  | some ro =>
    simp only [roStep]
    cases hs : signer.signOrder (assignedRemainingOrder env ro) <;> simp [hs]

/-- msStep fails exactly when matches are present and signing the batch of
nonce-assigned trades fails. -/
theorem msStep_error_iff (env : Env) (signer : Signer) (k : Nat)
    (ms? : Option (List RawMatch)) (e : String) :
    msStep env signer k ms? = Except.error e ↔
      ∃ ms, ms? = some ms ∧
        signAllTrades signer (assignTradeNonces env k ms) = Except.error e := by
  cases ms? with
  | none => simp [msStep]
  | some ms =>
    simp only [msStep]
    cases hs : signAllTrades signer (assignTradeNonces env k ms) <;> simp [hs]

/-- When the all-or-nothing signing of a batch fails, the reported message
is the failure of one of the batch's individual signing calls. -/
theorem signAllTrades_error_mem (signer : Signer) :
    ∀ (ms : List RawMatch) (e : String), signAllTrades signer ms = Except.error e →
      ∃ m ∈ ms, signer.signTrade m.trade = Except.error e := by
  intro ms
  induction ms with
  | nil => intro e h; simp [signAllTrades] at h
  | cons m ms ih =>
    intro e h
    simp only [signAllTrades] at h
    cases h1 : signer.signTrade m.trade with
    | error e1 =>
      rw [h1] at h
      simp at h
      exact ⟨m, by simp, by rw [h1, h]⟩
    | ok t1 =>
      rw [h1] at h
      cases h2 : signAllTrades signer ms with
      | error e2 =>
        rw [h2] at h
        simp at h
        obtain ⟨m', hm', he⟩ := ih e2 h2
        exact ⟨m', by simp [hm'], by rw [he, h]⟩
      | ok rest => rw [h2] at h; simp at h

/-- The batches the forEach loop produces are exactly the parsed orders of
the matches passing the owner test and the parsed trades of the matches
passing the counterparty test, in match order. -/
theorem collectMatches_ok (env : Env) (sa : String) :
    ∀ (ms : List RawMatch) (os : List Order) (ts : List Trade),
      collectMatches env sa ms = Except.ok (os, ts) →
      os = selectedOrders env sa ms ∧ ts = selectedTrades env sa ms := by
  intro ms
  induction ms with
  | nil =>
    intro os ts h
    simp [collectMatches] at h
    simp [selectedOrders, selectedTrades, h.1, h.2]
  | cons m ms ih =>
    intro os ts h
    simp only [collectMatches] at h
    by_cases ho : ownerTest env sa m
    · simp only [ho, if_true] at h
      cases hp : env.parseOrder m.order with
      | error e => rw [hp] at h; simp at h
      | ok o =>
        rw [hp] at h
        by_cases hc : counterpartyTest env sa m
        · simp only [hc, if_true] at h
          cases hq : env.parseTrade m.trade with
          | error e => rw [hq] at h; simp at h
          | ok tr =>
            rw [hq] at h
            cases hr : collectMatches env sa ms with
            | error e => rw [hr] at h; simp at h
            | ok p =>
              rw [hr] at h
              obtain ⟨osr, tsr⟩ := p
              simp at h
              obtain ⟨hos, hts⟩ := h
              obtain ⟨ih1, ih2⟩ := ih osr tsr hr
              subst hos hts ih1 ih2
              refine ⟨?_, ?_⟩
              · simp [selectedOrders, List.filter_cons, ho, List.filterMap_cons, hp, Except.toOption]
              · simp [selectedTrades, List.filter_cons, hc, List.filterMap_cons, hq, Except.toOption]
        · simp only [hc, if_false] at h
          cases hr : collectMatches env sa ms with
          | error e => rw [hr] at h; simp at h
          | ok p =>
            rw [hr] at h
            obtain ⟨osr, tsr⟩ := p
            simp at h
            obtain ⟨hos, hts⟩ := h
            obtain ⟨ih1, ih2⟩ := ih osr tsr hr
            subst hos hts ih1 ih2
            refine ⟨?_, ?_⟩
            · simp [selectedOrders, List.filter_cons, ho, List.filterMap_cons, hp, Except.toOption]
            · simp [selectedTrades, List.filter_cons, hc]
    · simp only [ho, if_false] at h
      by_cases hc : counterpartyTest env sa m
      · simp only [hc, if_true] at h
        cases hq : env.parseTrade m.trade with
        | error e => rw [hq] at h; simp at h
        | ok tr =>
          rw [hq] at h
          cases hr : collectMatches env sa ms with
          | error e => rw [hr] at h; simp at h
          | ok p =>
            rw [hr] at h
            obtain ⟨osr, tsr⟩ := p
            simp at h
            obtain ⟨hos, hts⟩ := h
            obtain ⟨ih1, ih2⟩ := ih osr tsr hr
            subst hos hts ih1 ih2
            refine ⟨?_, ?_⟩
            · simp [selectedOrders, List.filter_cons, ho]
            · simp [selectedTrades, List.filter_cons, hc, List.filterMap_cons, hq, Except.toOption]
      · simp only [hc, if_false] at h
        cases hr : collectMatches env sa ms with
        | error e => rw [hr] at h; simp at h
        | ok p =>
          rw [hr] at h
          obtain ⟨osr, tsr⟩ := p
          simp at h
          obtain ⟨hos, hts⟩ := h
          obtain ⟨ih1, ih2⟩ := ih osr tsr hr
          subst hos hts ih1 ih2
          refine ⟨?_, ?_⟩
          · simp [selectedOrders, List.filter_cons, ho]
          · simp [selectedTrades, List.filter_cons, hc]

/-- Step 1 dispatches at most the single-order upsert. -/
theorem step1Actions_shape (env : Env) (order : Option RawOrder) :
    step1Actions env order = [] ∨
      ∃ po, step1Actions env order = [Action.updateOrdersTable [po]] := by
  cases order with
  | none => exact Or.inl rfl
  | some o =>
    cases hp : env.parseOrder o with
    | ok po => exact Or.inr ⟨po, by simp [step1Actions, hp]⟩
    | error e => exact Or.inl (by simp [step1Actions, hp])

/-- Every trade in the batch is assigned its own fresh draw of the nonce
source before signing: the i-th trade receives draw k + i. -/
theorem assignTradeNonces_nonces (env : Env) (k : Nat) (ms : List RawMatch) :
    (assignTradeNonces env k ms).map (fun m => m.trade.tradeNonce) =
      (List.range ms.length).map fun i => some (env.nonce (k + i)) := by
  unfold assignTradeNonces
  rw [List.map_map]
  have h1 : ((fun m => m.trade.tradeNonce) ∘ fun p : Nat × RawMatch =>
      { p.2 with trade := { p.2.trade with tradeNonce := some (env.nonce (k + p.1)) } }) =
      fun p : Nat × RawMatch => some (env.nonce (k + p.1)) := rfl
  rw [h1]
  have h2 : (fun p : Nat × RawMatch => some (env.nonce (k + p.1))) =
      (fun i => some (env.nonce (k + i))) ∘ Prod.fst := rfl
  rw [h2, ← List.map_map, List.enum_map_fst]

/-- C1: for every REQUEST_SIGNATURE event, if any signing call fails — the
remaining-order signing (roStep yields an error) or any one trade-signing
call in the batch (msStep yields an error, which by the last conjunct is
exactly the failure of an individual signTrade call) — then no outbound
submission message is sent, a danger notice carrying the failure message
is emitted, and the order table still reflects step 1's upsert of the
payload's order when it was present. -/
theorem claim1_signing_failure_suppresses_send
    (env : Env) (t : Tables) (signer : Signer) (hash : String)
    (order remainingOrder : Option RawOrder) (matchList : Option (List RawMatch)) (e : String)
    (hs : env.getSigner = Except.ok signer)
    (h1 : order = none ∨ ∃ o po, order = some o ∧ env.parseOrder o = Except.ok po)
    (hfail : roStep env signer remainingOrder = Except.error e ∨
      ∃ ro k, roStep env signer remainingOrder = Except.ok (ro, k) ∧
        msStep env signer k matchList = Except.error e) :
    handleRequestSignature env hash order remainingOrder matchList =
      step1Actions env order ++ [Action.dangerNotification e, Action.consoleLog e] ∧
    (handleRequestSignature env hash order remainingOrder matchList).countP isSend = 0 ∧
    Action.dangerNotification e ∈ handleRequestSignature env hash order remainingOrder matchList ∧
    applyActions t (handleRequestSignature env hash order remainingOrder matchList) =
      applyActions t (step1Actions env order) ∧
    (∀ k ms, matchList = some ms → msStep env signer k matchList = Except.error e →
      ∃ m ∈ assignTradeNonces env k ms, signer.signTrade m.trade = Except.error e) := by
  have hrest : hrsRest env signer hash order remainingOrder matchList =
      [Action.dangerNotification e, Action.consoleLog e] := by
    rcases hfail with hro | ⟨ro, k, hok, hms⟩
    · simp only [hrsRest, hro]
    · simp only [hrsRest, hok, hms]
  have heq : handleRequestSignature env hash order remainingOrder matchList =
      step1Actions env order ++ [Action.dangerNotification e, Action.consoleLog e] := by
    rcases h1 with rfl | ⟨o, po, rfl, hp⟩
    · simp [handleRequestSignature, hs, hrest, step1Actions]
    · simp [handleRequestSignature, hs, hp, hrest, step1Actions]
  refine ⟨heq, ?_, ?_, ?_, ?_⟩
  · rw [heq]
    rcases step1Actions_shape env order with h0 | ⟨po, h0⟩ <;>
      simp [h0, List.countP_append, List.countP_cons, List.countP_nil, isSend]
  · rw [heq]
    simp
  · rw [heq, applyActions_append]
    rfl
  · intro k ms hm hmse
    subst hm
    obtain ⟨ms', hms', herr⟩ := (msStep_error_iff env signer k (some ms) e).mp hmse
    have hmm : ms = ms' := by injection hms'
    subst hmm
    exact signAllTrades_error_mem signer _ e herr

/-- Witness for claim1: a concrete REQUEST_SIGNATURE event carrying an
order, a remaining order, and one match whose trade the signer refuses,
evaluated through the theorem. -/
theorem claim1_witness :
    handleRequestSignature testEnv "h" (some wOrder) (some wOrder) (some [noSignMatch]) =
      step1Actions testEnv (some wOrder) ++
        [Action.dangerNotification "trade signing failed",
         Action.consoleLog "trade signing failed"] ∧
    (handleRequestSignature testEnv "h" (some wOrder) (some wOrder)
      (some [noSignMatch])).countP isSend = 0 := by
  have h := claim1_signing_failure_suppresses_send testEnv t0 testSigner "h"
    (some wOrder) (some wOrder) (some [noSignMatch]) "trade signing failed"
    rfl
    (Or.inr ⟨wOrder, { id := 2, data := "w" }, rfl, rfl⟩)
    (Or.inr ⟨some { wOrder with nonce := some 100, signature := some "sig" }, 1, rfl, rfl⟩)
  exact ⟨h.1, h.2.1⟩

/-- C2: for every REQUEST_SIGNATURE event in which all applicable signing
steps succeed, the handler dispatches exactly one outbound message
carrying the hash, the raw order, and the signed remaining order and
signed matches, with the "Signing trade" success notice emitted
immediately before the send; the signed structures are the signer's
outputs on the nonce-assigned inputs, and every trade was assigned its
own fresh nonce draw before signing. -/
theorem claim2_signing_success_sends_once
    (env : Env) (signer : Signer) (hash : String)
    (order remainingOrder : Option RawOrder) (matchList : Option (List RawMatch))
    (roSigned : Option RawOrder) (k : Nat) (msSigned : Option (List RawMatch))
    (hs : env.getSigner = Except.ok signer)
    (h1 : order = none ∨ ∃ o po, order = some o ∧ env.parseOrder o = Except.ok po)
    (hro : roStep env signer remainingOrder = Except.ok (roSigned, k))
    (hms : msStep env signer k matchList = Except.ok msSigned) :
    handleRequestSignature env hash order remainingOrder matchList =
      step1Actions env order ++
        [Action.successNotification "Signing trade",
         Action.sendNewSubmitSignatureMessage hash order roSigned msSigned] ∧
    (handleRequestSignature env hash order remainingOrder matchList).countP isSend = 1 ∧
    (∀ ro, remainingOrder = some ro →
      ∃ s, roSigned = some s ∧
        signer.signOrder (assignedRemainingOrder env ro) = Except.ok s) ∧
    (∀ ms, matchList = some ms →
      ∃ sl, msSigned = some sl ∧
        signAllTrades signer (assignTradeNonces env k ms) = Except.ok sl) ∧
    (∀ ms, matchList = some ms →
      (assignTradeNonces env k ms).map (fun m => m.trade.tradeNonce) =
        (List.range ms.length).map fun i => some (env.nonce (k + i))) := by
  have hrest : hrsRest env signer hash order remainingOrder matchList =
      [Action.successNotification "Signing trade",
       Action.sendNewSubmitSignatureMessage hash order roSigned msSigned] := by
    simp only [hrsRest, hro, hms]
  have heq : handleRequestSignature env hash order remainingOrder matchList =
      step1Actions env order ++
        [Action.successNotification "Signing trade",
         Action.sendNewSubmitSignatureMessage hash order roSigned msSigned] := by
    rcases h1 with rfl | ⟨o, po, rfl, hp⟩
    · simp [handleRequestSignature, hs, hrest, step1Actions]
    · simp [handleRequestSignature, hs, hp, hrest, step1Actions]
  refine ⟨heq, ?_, ?_, ?_, ?_⟩
  · rw [heq]
    rcases step1Actions_shape env order with h0 | ⟨po, h0⟩ <;>
      simp [h0, List.countP_append, List.countP_cons, List.countP_nil, isSend]
  · intro ro hro'
    subst hro'
    simp only [roStep] at hro
    cases hs2 : signer.signOrder (assignedRemainingOrder env ro) with
    | ok s =>
      rw [hs2] at hro
      simp at hro
      exact ⟨s, hro.1.symm, rfl⟩
    | error e =>
      rw [hs2] at hro
      simp at hro
  · intro ms hms'
    subst hms'
    simp only [msStep] at hms
    cases hs2 : signAllTrades signer (assignTradeNonces env k ms) with
    | ok sl =>
      rw [hs2] at hms
      simp at hms
      exact ⟨sl, hms.symm, rfl⟩
    | error e =>
      rw [hs2] at hms
      simp at hms
  · intro ms _
    exact assignTradeNonces_nonces env k ms

/-- Witness for claim2: a fully well-behaved REQUEST_SIGNATURE event,
evaluated through the theorem. -/
theorem claim2_witness :
    handleRequestSignature testEnv "h" (some wOrder) (some wOrder) (some [wMatch]) =
      step1Actions testEnv (some wOrder) ++
        [Action.successNotification "Signing trade",
         Action.sendNewSubmitSignatureMessage "h" (some wOrder)
           (some { wOrder with nonce := some 100, signature := some "sig" })
           (some [{ wMatch with
              trade := { wTrade with tradeNonce := some 101, signature := some "sig" } }])] ∧
    (handleRequestSignature testEnv "h" (some wOrder) (some wOrder)
      (some [wMatch])).countP isSend = 1 := by
  have h := claim2_signing_success_sends_once testEnv testSigner "h"
    (some wOrder) (some wOrder) (some [wMatch])
    (some { wOrder with nonce := some 100, signature := some "sig" }) 1
    (some [{ wMatch with
      trade := { wTrade with tradeNonce := some 101, signature := some "sig" } }])
    rfl
    (Or.inr ⟨wOrder, { id := 2, data := "w" }, rfl, rfl⟩)
    rfl rfl
  exact ⟨h.1, h.2.1⟩

/-- C3: for every ORDER_SUCCESS or ORDER_PENDING event with any number of
matches, table upserts happen at most twice — one batched orders-table
update when the order batch is non-empty and one batched trades-table
update when the trade batch is non-empty, never one update per match; an
order enters the batch exactly when its owner passes the address test
against the local signer address, a trade exactly when the local address
is its maker or taker; and exactly one success notice is emitted per
event, also when both batches are empty. -/
theorem claim3_batched_updates
    (env : Env) (signer : Signer) (sa : String) (ms : List RawMatch)
    (os : List Order) (ts : List Trade)
    (hs : env.getSigner = Except.ok signer)
    (ha : signer.getAddress = Except.ok sa)
    (hc : collectMatches env sa ms = Except.ok (os, ts)) :
    handleOrderSuccess env ms =
      ((if os.length > 0 then [Action.updateOrdersTable os] else []) ++
        (if ts.length > 0 then [Action.updateTradesTable ts] else []) ++
        [Action.successNotification "Order success"]) ∧
    handleOrderPending env ms =
      ((if os.length > 0 then [Action.updateOrdersTable os] else []) ++
        (if ts.length > 0 then [Action.updateTradesTable ts] else []) ++
        [Action.successNotification "Order pending"]) ∧
    os = selectedOrders env sa ms ∧
    ts = selectedTrades env sa ms ∧
    (handleOrderSuccess env ms).countP isTableAction ≤ 2 ∧
    (handleOrderPending env ms).countP isTableAction ≤ 2 ∧
    (handleOrderSuccess env ms).countP isSuccessNotice = 1 ∧
    (handleOrderPending env ms).countP isSuccessNotice = 1 ∧
    ordersBatches (handleOrderSuccess env ms) = (if os.length > 0 then [os] else []) ∧
    tradesBatches (handleOrderSuccess env ms) = (if ts.length > 0 then [ts] else []) := by
  have heqS : handleOrderSuccess env ms =
      ((if os.length > 0 then [Action.updateOrdersTable os] else []) ++
        (if ts.length > 0 then [Action.updateTradesTable ts] else []) ++
        [Action.successNotification "Order success"]) := by
    simp only [handleOrderSuccess, hs, ha, hc]
  have heqP : handleOrderPending env ms =
      ((if os.length > 0 then [Action.updateOrdersTable os] else []) ++
        (if ts.length > 0 then [Action.updateTradesTable ts] else []) ++
        [Action.successNotification "Order pending"]) := by
    simp only [handleOrderPending, hs, ha, hc]
  obtain ⟨hos, hts⟩ := collectMatches_ok env sa ms os ts hc
  refine ⟨heqS, heqP, hos, hts, ?_, ?_, ?_, ?_, ?_, ?_⟩
  all_goals
    simp only [heqS, heqP]
    by_cases h1 : os.length > 0 <;> by_cases h2 : ts.length > 0 <;>
      simp [h1, h2, List.countP_append, List.countP_cons, List.countP_nil,
        isTableAction, isSuccessNotice, ordersBatches, tradesBatches,
        List.filterMap_append, List.filterMap_cons]

/-- Witness for claim3: one well-behaved match where the local account is
both the owner of the order and the maker of the trade. -/
theorem claim3_witness :
    handleOrderSuccess testEnv [wMatch] =
      [Action.updateOrdersTable [{ id := 2, data := "w" }],
       Action.updateTradesTable [{ id := 2, data := "w" }],
       Action.successNotification "Order success"] ∧
    (handleOrderSuccess testEnv [wMatch]).countP isSuccessNotice = 1 := by
  have h := claim3_batched_updates testEnv testSigner "aa" [wMatch]
    [{ id := 2, data := "w" }] [{ id := 2, data := "w" }] rfl rfl rfl
  exact ⟨h.1, h.2.2.2.2.2.2.1⟩

/-- C4 (code_bug evaluation): an INIT event whose payload is an empty
dataset is NOT a no-op, because the reference-equality guard
`event.payload === []` is false for every payload: the empty array
reaches the parser — under testEnv's book parser (which rejects an empty
payload) a danger notice is emitted, and under testEnv's trades parser
(which accepts it) the trades table is replaced, changing table state.
Absent payloads, by contrast, are the claimed no-op. -/
theorem claim4_empty_payload_not_noop :
    handleOrderBookMessage testEnv { type := SyncType.INIT, payload := some [] } =
      [Action.dangerNotification "empty book payload",
       Action.consoleLog "empty book payload"] ∧
    handleTradesMessage testEnv { type := SyncType.INIT, payload := some [] } =
      [Action.initTradesTable []] ∧
    applyActions t1 (handleTradesMessage testEnv
      { type := SyncType.INIT, payload := some [] }) ≠ t1 ∧
    handleOrderBookMessage testEnv { type := SyncType.INIT, payload := none } = [] := by
  refine ⟨rfl, rfl, ?_, rfl⟩
  decide

/-- C5: for every inbound event on any channel whose payload fails to
parse, the handler emits a danger notice carrying the parse failure's
message, dispatches no table update (so the table state after the handler
equals the state before it), and returns normally.  One conjunct per
handler and event type. -/
theorem claim5_parse_fault_no_partial_write (env : Env) (t : Tables) (e : String) :
    (∀ p, env.parseOrder p = Except.error e →
      handleOrderAdded env p = [Action.consoleLog e, Action.dangerNotification e] ∧
      applyActions t (handleOrderAdded env p) = t) ∧
    (∀ p, env.parseOrder p = Except.error e →
      handleOrderCancelled env p = [Action.consoleLog e, Action.dangerNotification e] ∧
      applyActions t (handleOrderCancelled env p) = t) ∧
    (∀ signer sa ms, env.getSigner = Except.ok signer → signer.getAddress = Except.ok sa →
      collectMatches env sa ms = Except.error e →
      handleOrderSuccess env ms = [Action.consoleLog e, Action.dangerNotification e] ∧
      handleOrderPending env ms = [Action.consoleLog e, Action.dangerNotification e] ∧
      applyActions t (handleOrderSuccess env ms) = t ∧
      applyActions t (handleOrderPending env ms) = t) ∧
    (∀ signer hash o ro ml, env.getSigner = Except.ok signer →
      env.parseOrder o = Except.error e →
      handleRequestSignature env hash (some o) ro ml =
        [Action.dangerNotification e, Action.consoleLog e] ∧
      applyActions t (handleRequestSignature env hash (some o) ro ml) = t) ∧
    (∀ p, env.parseOrderBookData p = Except.error e →
      handleOrderBookMessage env { type := SyncType.INIT, payload := some p } =
        [Action.dangerNotification e, Action.consoleLog e] ∧
      handleOrderBookMessage env { type := SyncType.UPDATE, payload := some p } =
        [Action.dangerNotification e, Action.consoleLog e] ∧
      applyActions t (handleOrderBookMessage env
        { type := SyncType.INIT, payload := some p }) = t ∧
      applyActions t (handleOrderBookMessage env
        { type := SyncType.UPDATE, payload := some p }) = t) ∧
    (∀ p, env.parseTrades p = Except.error e →
      handleTradesMessage env { type := SyncType.INIT, payload := some p } =
        [Action.dangerNotification e, Action.consoleLog e] ∧
      handleTradesMessage env { type := SyncType.UPDATE, payload := some p } =
        [Action.dangerNotification e, Action.consoleLog e] ∧
      applyActions t (handleTradesMessage env
        { type := SyncType.INIT, payload := some p }) = t ∧
      applyActions t (handleTradesMessage env
        { type := SyncType.UPDATE, payload := some p }) = t) ∧
    (∀ p, env.parseOHLCV p = Except.error e →
      handleOHLCVMessage env { type := SyncType.INIT, payload := some p } =
        [Action.dangerNotification e, Action.consoleLog e] ∧
      handleOHLCVMessage env { type := SyncType.UPDATE, payload := some p } =
        [Action.dangerNotification e, Action.consoleLog e] ∧
      applyActions t (handleOHLCVMessage env
        { type := SyncType.INIT, payload := some p }) = t ∧
      applyActions t (handleOHLCVMessage env
        { type := SyncType.UPDATE, payload := some p }) = t) := by
  refine ⟨?_, ?_, ?_, ?_, ?_, ?_, ?_⟩
  · intro p hp
    have h : handleOrderAdded env p = [Action.consoleLog e, Action.dangerNotification e] := by
      simp only [handleOrderAdded, hp]
    exact ⟨h, by rw [h]; rfl⟩
  · intro p hp
    have h : handleOrderCancelled env p =
        [Action.consoleLog e, Action.dangerNotification e] := by
      simp only [handleOrderCancelled, hp]
    exact ⟨h, by rw [h]; rfl⟩
  · intro signer sa ms hs ha hcm
    have h1 : handleOrderSuccess env ms =
        [Action.consoleLog e, Action.dangerNotification e] := by
      simp only [handleOrderSuccess, hs, ha, hcm]
    have h2 : handleOrderPending env ms =
        [Action.consoleLog e, Action.dangerNotification e] := by
      simp only [handleOrderPending, hs, ha, hcm]
    exact ⟨h1, h2, by rw [h1]; rfl, by rw [h2]; rfl⟩
  · intro signer hash o ro ml hs hp
    have h : handleRequestSignature env hash (some o) ro ml =
        [Action.dangerNotification e, Action.consoleLog e] := by
      simp only [handleRequestSignature, hs, hp]
    exact ⟨h, by rw [h]; rfl⟩
  · intro p hp
    have h1 : handleOrderBookMessage env { type := SyncType.INIT, payload := some p } =
        [Action.dangerNotification e, Action.consoleLog e] := by
      simp only [handleOrderBookMessage, hp, refEqFreshArray, if_false, Bool.false_eq_true]
    have h2 : handleOrderBookMessage env { type := SyncType.UPDATE, payload := some p } =
        [Action.dangerNotification e, Action.consoleLog e] := by
      simp only [handleOrderBookMessage, hp, refEqFreshArray, if_false, Bool.false_eq_true]
    exact ⟨h1, h2, by rw [h1]; rfl, by rw [h2]; rfl⟩
  · intro p hp
    have h1 : handleTradesMessage env { type := SyncType.INIT, payload := some p } =
        [Action.dangerNotification e, Action.consoleLog e] := by
      simp only [handleTradesMessage, hp, refEqFreshArray, if_false, Bool.false_eq_true]
    have h2 : handleTradesMessage env { type := SyncType.UPDATE, payload := some p } =
        [Action.dangerNotification e, Action.consoleLog e] := by
      simp only [handleTradesMessage, hp, refEqFreshArray, if_false, Bool.false_eq_true]
    exact ⟨h1, h2, by rw [h1]; rfl, by rw [h2]; rfl⟩
  · intro p hp
    have h1 : handleOHLCVMessage env { type := SyncType.INIT, payload := some p } =
        [Action.dangerNotification e, Action.consoleLog e] := by
      simp only [handleOHLCVMessage, hp, refEqFreshArray, if_false, Bool.false_eq_true]
    have h2 : handleOHLCVMessage env { type := SyncType.UPDATE, payload := some p } =
        [Action.dangerNotification e, Action.consoleLog e] := by
      simp only [handleOHLCVMessage, hp, refEqFreshArray, if_false, Bool.false_eq_true]
    exact ⟨h1, h2, by rw [h1]; rfl, by rw [h2]; rfl⟩

/-- Witness for claim5: concrete malformed payloads on the orders channel
(ORDER_ADDED and ORDER_SUCCESS) and the order-book channel, evaluated
through the theorem. -/
theorem claim5_witness :
    (handleOrderAdded testEnv badOrder =
      [Action.consoleLog "bad order payload", Action.dangerNotification "bad order payload"] ∧
      applyActions t1 (handleOrderAdded testEnv badOrder) = t1) ∧
    (handleOrderSuccess testEnv [badTradeMatch] =
      [Action.consoleLog "bad trade payload", Action.dangerNotification "bad trade payload"] ∧
      applyActions t1 (handleOrderSuccess testEnv [badTradeMatch]) = t1) ∧
    (handleOrderBookMessage testEnv { type := SyncType.UPDATE, payload := some [] } =
      [Action.dangerNotification "empty book payload", Action.consoleLog "empty book payload"] ∧
      applyActions t1 (handleOrderBookMessage testEnv
        { type := SyncType.UPDATE, payload := some [] }) = t1) := by
  have ha := claim5_parse_fault_no_partial_write testEnv t1 "bad order payload"
  have hb := claim5_parse_fault_no_partial_write testEnv t1 "bad trade payload"
  have hc := claim5_parse_fault_no_partial_write testEnv t1 "empty book payload"
  refine ⟨ha.1 badOrder rfl, ?_, ?_⟩
  · have h := hb.2.2.1 testSigner "aa" [badTradeMatch] rfl rfl rfl
    exact ⟨h.1, h.2.2.1⟩
  · have h := hc.2.2.2.2.1 [] rfl
    exact ⟨h.2.1, h.2.2.2⟩

/-- Counterexample to C6's cancellation clause: in the trace
close → teardown → 5000 ms elapse, the teardown handle is invoked before
the scheduled delay elapses, yet the reconnect still executes — the
teardown handle never clears the timer, so a dangling timer survives
teardown, contradicting the claim that the scheduled reconnect never
executes. -/
theorem claim6_counterexample :
    Action.dispatchOpenConnection ∈
      (elapse 5000 (teardown (lifecycleStep initSysState
        LifecycleEventType.closeEvt))).actions := by
  decide

/-- C6 as amended: a close lifecycle event emits the danger notice
"Connection lost" and schedules exactly one reconnect after the fixed
5000 ms delay; the teardown handle does not cancel it — the timer is
still pending after teardown, no reconnect fires before the delay
elapses, and exactly one reconnect executes once it does. -/
theorem claim6_reconnect_timer_survives_teardown
    (s : SysState)
    (h : s.timers = [])
    (hna : s.actions.countP (fun a => a == Action.dispatchOpenConnection) = 0) :
    lifecycleStep s LifecycleEventType.closeEvt =
      { s with actions := s.actions ++ [Action.dangerNotification "Connection lost"],
               timers := [(5000, TimerTask.reconnect)] } ∧
    (teardown (lifecycleStep s LifecycleEventType.closeEvt)).timers =
      [(5000, TimerTask.reconnect)] ∧
    (∀ ms, ms < 5000 →
      (elapse ms (teardown (lifecycleStep s LifecycleEventType.closeEvt))).actions.countP
        (fun a => a == Action.dispatchOpenConnection) = 0) ∧
    (elapse 5000 (teardown (lifecycleStep s LifecycleEventType.closeEvt))).actions.countP
      (fun a => a == Action.dispatchOpenConnection) = 1 := by
  have h1 : lifecycleStep s LifecycleEventType.closeEvt =
      { s with actions := s.actions ++ [Action.dangerNotification "Connection lost"],
               timers := [(5000, TimerTask.reconnect)] } := by
    simp [lifecycleStep, handleWebsocketCloseMessage, h]
  have h2 : teardown (lifecycleStep s LifecycleEventType.closeEvt) =
      { actions := s.actions ++ [Action.dangerNotification "Connection lost",
          Action.closeConnection],
        timers := [(5000, TimerTask.reconnect)],
        socketOpen := false } := by
    rw [h1]
    simp [teardown]
  refine ⟨h1, by rw [h2], ?_, ?_⟩
  · intro ms hms
    rw [h2]
    have hd : decide ((5000 : Nat) ≤ ms) = false := decide_eq_false (by omega)
    simp [elapse, hd, List.countP_append, hna, List.countP_cons]
  · rw [h2]
    simp [elapse, List.countP_append, hna, List.countP_cons]

/-- Witness for the amended claim6, at the state right after a fresh
openConnection run. -/
theorem claim6_witness :
    (teardown (lifecycleStep initSysState LifecycleEventType.closeEvt)).timers =
      [(5000, TimerTask.reconnect)] ∧
    (elapse 5000 (teardown (lifecycleStep initSysState
      LifecycleEventType.closeEvt))).actions.countP
      (fun a => a == Action.dispatchOpenConnection) = 1 := by
  have h := claim6_reconnect_timer_survives_teardown initSysState rfl (by decide)
  exact ⟨h.2.1, h.2.2.2⟩

/-- Counterexample to C7: the wire supplies the canonical spelling "AB"
of the order's owner while the signer supplies the same account in the
non-canonical lowercase spelling "ab"; the two spellings have equal
canonical forms, yet the owner membership test fails and the handler
attributes nothing to the local user — because the code canonicalizes
only the wire side, not the signer-supplied side, the test does not
succeed regardless of the casing in which either side is supplied. -/
theorem claim7_counterexample :
    lowercaseSignerEnv.getAddress "AB" = lowercaseSignerEnv.getAddress "ab" ∧
    ownerTest lowercaseSignerEnv "ab" abMatch = false ∧
    handleOrderSuccess lowercaseSignerEnv [abMatch] =
      [Action.successNotification "Order success"] := by
  refine ⟨rfl, rfl, rfl⟩

/-- C7 as amended: the membership tests compare the checksum-normalized
wire-side address against the signer-supplied address as-is; whenever the
signer-supplied address is canonical (a fixed point of normalization),
the tests succeed exactly for addresses of the same account, regardless
of the casing of the wire-side spelling. -/
theorem claim7_canonical_comparison
    (env : Env) (sa : String) (m : RawMatch)
    (hsa : env.getAddress sa = sa) :
    (ownerTest env sa m = true ↔
      env.getAddress m.order.userAddress = env.getAddress sa) ∧
    (counterpartyTest env sa m = true ↔
      (env.getAddress m.trade.maker = env.getAddress sa ∨
        env.getAddress m.trade.taker = env.getAddress sa)) ∧
    (∀ m' : RawMatch,
      env.getAddress m'.order.userAddress = env.getAddress m.order.userAddress →
      ownerTest env sa m' = ownerTest env sa m) := by
  refine ⟨?_, ?_, ?_⟩
  · rw [ownerTest, hsa, beq_iff_eq]
  · rw [counterpartyTest, hsa, Bool.or_eq_true, beq_iff_eq, beq_iff_eq]
  · intro m' hm'
    rw [ownerTest, ownerTest, hm']

/-- Witness for the amended claim7: with the canonical signer-side
spelling "AB", the lowercase wire-side spelling "ab" passes the owner
test exactly because the two canonical forms agree. -/
theorem claim7_witness :
    (ownerTest lowercaseSignerEnv "AB" abLowerMatch = true ↔
      lowercaseSignerEnv.getAddress "ab" = lowercaseSignerEnv.getAddress "AB") ∧
    ownerTest lowercaseSignerEnv "AB" abLowerMatch = true := by
  have h := claim7_canonical_comparison lowercaseSignerEnv "AB" abLowerMatch rfl
  exact ⟨h.1, rfl⟩

/-- Counterexample to C8: in a trace whose only lifecycle event is the
very first open — no prior close of any earlier connection — the handler
still emits the "Reconnected" success notice, contradicting the claim
that an open with no prior close produces no such notice. -/
theorem claim8_counterexample :
    (runLifecycle initSysState [LifecycleEventType.openEvt]).actions =
      [Action.createConnection, Action.successNotification "Reconnected"] := by
  rfl

/-- C8 as amended: every open lifecycle event — whether or not a close
preceded it — emits the "Reconnected" success notice, and that is the
only effect: no timers are touched, no table action, no replay, no other
state mutation. -/
theorem claim8_open_always_notifies (s : SysState) :
    lifecycleStep s LifecycleEventType.openEvt =
      { s with actions := s.actions ++ [Action.successNotification "Reconnected"] } := by
  rfl

/-- C9: a REQUEST_SIGNATURE event carrying none of order, remainingOrder,
matches still emits the "Signing trade" success notice and still sends
the outbound submission with the correlation hash and the three data
fields absent, and performs no table update. -/
theorem claim9_empty_request_signature
    (env : Env) (t : Tables) (hash : String) (signer : Signer)
    (hs : env.getSigner = Except.ok signer) :
    handleRequestSignature env hash none none none =
      [Action.successNotification "Signing trade",
       Action.sendNewSubmitSignatureMessage hash none none none] ∧
    applyActions t (handleRequestSignature env hash none none none) = t := by
  have h : handleRequestSignature env hash none none none =
      [Action.successNotification "Signing trade",
       Action.sendNewSubmitSignatureMessage hash none none none] := by
    simp [handleRequestSignature, hs, hrsRest, roStep, msStep]
  exact ⟨h, by rw [h]; rfl⟩

/-- Witness for claim9 at the concrete test environment. -/
theorem claim9_witness :
    handleRequestSignature testEnv "h9" none none none =
      [Action.successNotification "Signing trade",
       Action.sendNewSubmitSignatureMessage "h9" none none none] ∧
    applyActions t0 (handleRequestSignature testEnv "h9" none none none) = t0 :=
  claim9_empty_request_signature testEnv t0 "h9" testSigner rfl

/-- C10: for every ORDER_SUCCESS or ORDER_PENDING event, if obtaining the
signer capability or its address fails, the handler performs no
order-table or trade-table update (table state is unchanged), emits a
danger notice carrying the failure's message, emits no success notice,
and returns normally. -/
theorem claim10_signer_failure
    (env : Env) (t : Tables) (ms : List RawMatch) (e : String) :
    (env.getSigner = Except.error e →
      handleOrderSuccess env ms = [Action.consoleLog e, Action.dangerNotification e] ∧
      handleOrderPending env ms = [Action.consoleLog e, Action.dangerNotification e] ∧
      applyActions t (handleOrderSuccess env ms) = t ∧
      applyActions t (handleOrderPending env ms) = t ∧
      (handleOrderSuccess env ms).countP isSuccessNotice = 0 ∧
      (handleOrderPending env ms).countP isSuccessNotice = 0) ∧
    (∀ signer, env.getSigner = Except.ok signer → signer.getAddress = Except.error e →
      handleOrderSuccess env ms = [Action.consoleLog e, Action.dangerNotification e] ∧
      handleOrderPending env ms = [Action.consoleLog e, Action.dangerNotification e] ∧
      applyActions t (handleOrderSuccess env ms) = t ∧
      applyActions t (handleOrderPending env ms) = t ∧
      (handleOrderSuccess env ms).countP isSuccessNotice = 0 ∧
      (handleOrderPending env ms).countP isSuccessNotice = 0) := by
  constructor
  · intro hs
    have h1 : handleOrderSuccess env ms =
        [Action.consoleLog e, Action.dangerNotification e] := by
      simp only [handleOrderSuccess, hs]
    have h2 : handleOrderPending env ms =
        [Action.consoleLog e, Action.dangerNotification e] := by
      simp only [handleOrderPending, hs]
    exact ⟨h1, h2, by rw [h1]; rfl, by rw [h2]; rfl,
      by rw [h1]; rfl, by rw [h2]; rfl⟩
  · intro signer hs ha
    have h1 : handleOrderSuccess env ms =
        [Action.consoleLog e, Action.dangerNotification e] := by
      simp only [handleOrderSuccess, hs, ha]
    have h2 : handleOrderPending env ms =
        [Action.consoleLog e, Action.dangerNotification e] := by
      simp only [handleOrderPending, hs, ha]
    exact ⟨h1, h2, by rw [h1]; rfl, by rw [h2]; rfl,
      by rw [h1]; rfl, by rw [h2]; rfl⟩

/-- Witness for claim10: a failing signer lookup and a failing address
lookup, each evaluated through the theorem. -/
theorem claim10_witness :
    (handleOrderSuccess noSignerEnv [wMatch] =
      [Action.consoleLog "no signer available",
       Action.dangerNotification "no signer available"] ∧
      applyActions t1 (handleOrderSuccess noSignerEnv [wMatch]) = t1) ∧
    (handleOrderPending noAddressEnv [wMatch] =
      [Action.consoleLog "address unavailable",
       Action.dangerNotification "address unavailable"] ∧
      applyActions t1 (handleOrderPending noAddressEnv [wMatch]) = t1) := by
  have ha := (claim10_signer_failure noSignerEnv t1 [wMatch] "no signer available").1 rfl
  have hb := (claim10_signer_failure noAddressEnv t1 [wMatch] "address unavailable").2
    { testSigner with getAddress := Except.error "address unavailable" } rfl rfl
  exact ⟨⟨ha.1, ha.2.2.1⟩, ⟨hb.2.1, hb.2.2.2.1⟩⟩

end AmpClient
